import Mathlib

/-!
Shallow embedding of `blinkpy/sync_module.py` (class `BlinkSyncModule`).

Remote JSON payloads and Python values are modelled by the inductive `Val`.
Python exceptions relevant to this module are modelled by `PyErr`; every
operation returns an `Except PyErr _` result paired with the state of the
object at return / raise time (Python mutations performed before a raise
persist, so the state is threaded even through error returns).

The transport collaborator (the `api.request_*` functions together with the
owning `blink` handle) is modelled by `Transport`: one response per distinct
remote resource, and a page-indexed response family for the video listing.
-/

/-- A Python value as used by this module: `None`, booleans, integers,
strings, lists and dicts (association lists in insertion order). -/
inductive Val where
  | none_ : Val
  | bool (b : Bool) : Val
  | int (n : Int) : Val
  | str (s : String) : Val
  | list (elems : List Val) : Val
  | dict (entries : List (Val × Val)) : Val

/-- Python exceptions that the code in `sync_module.py` can raise or catch. -/
inductive PyErr where
  | keyError : PyErr
  | typeError : PyErr
  | attributeError : PyErr
  | indexError : PyErr
  deriving DecidableEq, Repr

mutual

/-- Decidable structural equality on `Val` (Python `==` restricted to the
value shapes used by this module). -/
def decEqVal : (a b : Val) → Decidable (a = b)
  | .none_, .none_ => isTrue rfl
  | .bool a, .bool b =>
      match decEq a b with
      | isTrue h => isTrue (h ▸ rfl)
      | isFalse h => isFalse (fun hh => h (Val.bool.inj hh))
  | .int a, .int b =>
      match decEq a b with
      | isTrue h => isTrue (h ▸ rfl)
      | isFalse h => isFalse (fun hh => h (Val.int.inj hh))
  | .str a, .str b =>
      match decEq a b with
      | isTrue h => isTrue (h ▸ rfl)
      | isFalse h => isFalse (fun hh => h (Val.str.inj hh))
  | .list xs, .list ys =>
      match decEqValList xs ys with
      | isTrue h => isTrue (h ▸ rfl)
      | isFalse h => isFalse (fun hh => h (Val.list.inj hh))
  | .dict xs, .dict ys =>
      match decEqValPairs xs ys with
      | isTrue h => isTrue (h ▸ rfl)
      | isFalse h => isFalse (fun hh => h (Val.dict.inj hh))
  | .none_, .bool _ => isFalse (fun h => Val.noConfusion h)
  | .none_, .int _ => isFalse (fun h => Val.noConfusion h)
  | .none_, .str _ => isFalse (fun h => Val.noConfusion h)
  | .none_, .list _ => isFalse (fun h => Val.noConfusion h)
  | .none_, .dict _ => isFalse (fun h => Val.noConfusion h)
  | .bool _, .none_ => isFalse (fun h => Val.noConfusion h)
  | .bool _, .int _ => isFalse (fun h => Val.noConfusion h)
  | .bool _, .str _ => isFalse (fun h => Val.noConfusion h)
  | .bool _, .list _ => isFalse (fun h => Val.noConfusion h)
  | .bool _, .dict _ => isFalse (fun h => Val.noConfusion h)
  | .int _, .none_ => isFalse (fun h => Val.noConfusion h)
  | .int _, .bool _ => isFalse (fun h => Val.noConfusion h)
  | .int _, .str _ => isFalse (fun h => Val.noConfusion h)
  | .int _, .list _ => isFalse (fun h => Val.noConfusion h)
  | .int _, .dict _ => isFalse (fun h => Val.noConfusion h)
  | .str _, .none_ => isFalse (fun h => Val.noConfusion h)
  | .str _, .bool _ => isFalse (fun h => Val.noConfusion h)
  | .str _, .int _ => isFalse (fun h => Val.noConfusion h)
  | .str _, .list _ => isFalse (fun h => Val.noConfusion h)
  | .str _, .dict _ => isFalse (fun h => Val.noConfusion h)
  | .list _, .none_ => isFalse (fun h => Val.noConfusion h)
  | .list _, .bool _ => isFalse (fun h => Val.noConfusion h)
  | .list _, .int _ => isFalse (fun h => Val.noConfusion h)
  | .list _, .str _ => isFalse (fun h => Val.noConfusion h)
  | .list _, .dict _ => isFalse (fun h => Val.noConfusion h)
  | .dict _, .none_ => isFalse (fun h => Val.noConfusion h)
  | .dict _, .bool _ => isFalse (fun h => Val.noConfusion h)
  | .dict _, .int _ => isFalse (fun h => Val.noConfusion h)
  | .dict _, .str _ => isFalse (fun h => Val.noConfusion h)
  | .dict _, .list _ => isFalse (fun h => Val.noConfusion h)
termination_by structural a _ => a

/-- Decidable equality of lists of `Val`. -/
def decEqValList : (xs ys : List Val) → Decidable (xs = ys)
  | [], [] => isTrue rfl
  | [], _ :: _ => isFalse (fun h => List.noConfusion h)
  | _ :: _, [] => isFalse (fun h => List.noConfusion h)
  | x :: xs, y :: ys =>
      match decEqVal x y with
      | isFalse h => isFalse (fun hh => by injection hh with h1 _; exact h h1)
      | isTrue h1 =>
        match decEqValList xs ys with
        | isTrue h2 => isTrue (by rw [h1, h2])
        | isFalse h => isFalse (fun hh => by injection hh with _ h2; exact h h2)
termination_by structural a _ => a

/-- Decidable equality of dict entry lists. -/
def decEqValPairs : (xs ys : List (Val × Val)) → Decidable (xs = ys)
  | [], [] => isTrue rfl
  | [], _ :: _ => isFalse (fun h => List.noConfusion h)
  | _ :: _, [] => isFalse (fun h => List.noConfusion h)
  | (k, v) :: xs, (k2, v2) :: ys =>
      match decEqVal k k2 with
      | isFalse h =>
          isFalse (fun hh => by
            injection hh with h1 _
            exact h (congrArg Prod.fst h1))
      | isTrue hk =>
        match decEqVal v v2 with
        | isFalse h =>
            isFalse (fun hh => by
              injection hh with h1 _
              exact h (congrArg Prod.snd h1))
        | isTrue hv =>
          match decEqValPairs xs ys with
          | isTrue ht => isTrue (by rw [hk, hv, ht])
          | isFalse h => isFalse (fun hh => by injection hh with _ h2; exact h h2)
termination_by structural a _ => a

end

instance : DecidableEq Val := decEqVal

instance {ε α : Type} [DecidableEq ε] [DecidableEq α] : DecidableEq (Except ε α) := fun a b =>
  match a, b with
  | .ok x, .ok y =>
      if h : x = y then isTrue (by rw [h]) else isFalse (fun hh => h (Except.ok.inj hh))
  | .error x, .error y =>
      if h : x = y then isTrue (by rw [h]) else isFalse (fun hh => h (Except.error.inj hh))
  | .ok _, .error _ => isFalse (fun h => Except.noConfusion h)
  | .error _, .ok _ => isFalse (fun h => Except.noConfusion h)

namespace Val

/-- Python hashability: lists and dicts are unhashable, everything else here
is hashable. Using one as a dict key raises `TypeError`. -/
def hashable : Val → Bool
  | .list _ => false
  | .dict _ => false
  | _ => true

/-- Python truthiness (`if not x`): `None`, `False`, `0`, `""`, `[]`, `{}`
are falsy. -/
def truthy : Val → Bool
  | .none_ => false
  | .bool b => b
  | .int n => n != 0
  | .str s => s != ""
  | .list l => !l.isEmpty
  | .dict l => !l.isEmpty

end Val

/-- First-occurrence lookup in a Python dict (association list). -/
def dlookup (l : List (Val × Val)) (k : Val) : Option Val :=
  match l with
  | [] => none
  | (k2, v) :: rest => if k2 = k then some v else dlookup rest k

/-- Python dict assignment `d[k] = v`: update the value in place if the key
is present (keeping the originally stored key object), else append. -/
def dset (l : List (Val × Val)) (k : Val) (v : Val) : List (Val × Val) :=
  match l with
  | [] => [(k, v)]
  | (k2, v2) :: rest => if k2 = k then (k2, v) :: rest else (k2, v2) :: dset rest k v

/-- Python list indexing `l[i]`, including negative indices. -/
def listIndex (l : List Val) (i : Int) : Except PyErr Val :=
  let j : Int := if i < 0 then i + l.length else i
  if h : 0 ≤ j ∧ j.toNat < l.length then .ok (l.get ⟨j.toNat, h.2⟩)
  else .error .indexError

/-- Python subscript read `c[k]`. Dicts raise `TypeError` on an unhashable
key and `KeyError` on a miss; lists index by integer (raising `IndexError`
out of range, `TypeError` otherwise); everything else raises `TypeError`
(string indexing by integer never occurs in this module and is folded into
the `TypeError` case of non-integer keys). -/
def getItem : Val → Val → Except PyErr Val
  | .dict l, k =>
      if k.hashable then
        match dlookup l k with
        | some v => .ok v
        | none => .error .keyError
      else .error .typeError
  | .list l, .int i => listIndex l i
  | .list _, _ => .error .typeError
  | _, _ => .error .typeError

/-- Python subscript write `c[k] = v`. -/
def setItem : Val → Val → Val → Except PyErr Val
  | .dict l, k, v => if k.hashable then .ok (.dict (dset l k v)) else .error .typeError
  | .list l, .int i, v =>
      let j : Int := if i < 0 then i + l.length else i
      if 0 ≤ j ∧ j.toNat < l.length then .ok (.list (l.set j.toNat v))
      else .error .indexError
  | .list _, _, _ => .error .typeError
  | _, _, _ => .error .typeError

/-- Whether the first list is a leading block of the second. -/
def leads : List Char → List Char → Bool
  | [], _ => true
  | _ :: _, [] => false
  | a :: as, b :: bs => a = b && leads as bs

/-- Whether `sub` occurs somewhere in `cs`. -/
def occursIn (sub : List Char) : List Char → Bool
  | [] => sub.isEmpty
  | c :: rest => leads sub (c :: rest) || occursIn sub rest

/-- Substring test for Python `sub in s` on strings. -/
def strContains (s sub : String) : Bool :=
  occursIn sub.data s.data

/-- Python membership `k in c`: key membership for dicts (unhashable keys
raise `TypeError`), element membership for lists, substring for strings,
`TypeError` otherwise. -/
def containsVal : Val → Val → Except PyErr Bool
  | .dict l, k => if k.hashable then .ok (dlookup l k).isSome else .error .typeError
  | .list l, k => .ok (decide (k ∈ l))
  | .str s, .str sub => .ok (strContains s sub)
  | .str _, _ => .error .typeError
  | _, _ => .error .typeError

/-- Python iteration `for x in c`: elements of a list, keys of a dict,
characters of a string; `TypeError` otherwise. -/
def pyIter : Val → Except PyErr (List Val)
  | .list l => .ok l
  | .dict l => .ok (l.map (·.1))
  | .str s => .ok (s.toList.map (fun c => .str (String.mk [c])))
  | _ => .error .typeError

/-- The external per-camera collaborator (`BlinkCamera`). Its `update`
method mutates only the camera itself; we record the sequence of
`(camera_config, force_cache)` calls it has received. A camera fresh from
`BlinkCamera(self)` has received none. -/
structure Camera where
  updates : List (Val × Bool)
  deriving DecidableEq

/-- Lowercasing for `CaseInsensitiveDict` key comparison (`key.lower()`). -/
def lowerStr (s : String) : String :=
  String.mk (s.data.map Char.toLower)

/-- Lookup in the `CaseInsensitiveDict` holding cameras: keys compare by
lowercase. -/
def cilookup (l : List (String × Camera)) (k : String) : Option Camera :=
  match l with
  | [] => none
  | (k2, c) :: rest => if lowerStr k2 = lowerStr k then some c else cilookup rest k

/-- Assignment into the `CaseInsensitiveDict`: an existing entry (same
lowercase key) is replaced in place, the stored original key becoming the
newly supplied one; otherwise the entry is appended. -/
def ciset (l : List (String × Camera)) (k : String) (c : Camera) : List (String × Camera) :=
  match l with
  | [] => [(k, c)]
  | (k2, c2) :: rest =>
      if lowerStr k2 = lowerStr k then (k, c) :: rest else (k2, c2) :: ciset rest k c

/-- The mutable state of a `BlinkSyncModule` instance. Attributes that
`__init__` does not create (`all_clips`, `videos`, `record_dates` are first
assigned only inside `get_videos`) are modelled as `Option Val`: `none`
means the attribute is absent and reading it raises `AttributeError`. -/
structure SyncModule where
  name : String
  network_id : Val
  region : Val
  region_id : Val
  auth_header : Val
  serial : Val
  status : Val
  sync_id : Val
  host : Val
  summary : Val
  homescreen : Val
  network_info : Val
  events : Val
  cameras : List (String × Camera)
  motion : List (Val × Val)
  last_record : List (Val × Val)
  all_clips : Option Val
  videos : Option Val
  record_dates : Option Val
  deriving DecidableEq

/-- Constructor `BlinkSyncModule(blink, network_name, network_id)`: the
blink-derived fields (`auth_header`, `region`, `region_id`) are passed
explicitly; everything else is set exactly as in `__init__`. -/
def init (auth_header region region_id : Val) (network_name : String)
    (network_id : Val) : SyncModule :=
  { name := network_name
    network_id := network_id
    region := region
    region_id := region_id
    auth_header := auth_header
    serial := .none_
    status := .none_
    sync_id := .none_
    host := .none_
    summary := .none_
    homescreen := .none_
    network_info := .none_
    events := .list []
    cameras := []
    motion := []
    last_record := []
    all_clips := none
    videos := none
    record_dates := none }

/-- One fixed environment of transport responses: what each `api.request_*`
call used by the sync module returns (already parsed, or `Val.none_` for a
missing/invalid body). `videos_page n` is the response of
`api.request_videos(blink, page=n)`; `videos_time_resp` is the response of
the timestamp-filtered page-0 request issued by `check_new_videos`. -/
structure Transport where
  syncmodule_resp : Val
  events_resp : Val
  homescreen_resp : Val
  network_status_resp : Val
  cameras_resp : Val
  videos_time_resp : Val
  videos_page : Nat → Val

/-- Method `get_events`: return `response['event']`, or Python `False` when
the lookup raises `TypeError`/`KeyError` (the only errors a string-key
subscript can produce). -/
def get_events (t : Transport) : Val :=
  match getItem t.events_resp (.str "event") with
  | .ok v => v
  | .error _ => .bool false

/-- Method `get_camera_info`: return `response['devicestatus']`, or the
empty list when the lookup raises `TypeError`/`KeyError`. -/
def get_camera_info (t : Transport) : Val :=
  match getItem t.cameras_resp (.str "devicestatus") with
  | .ok v => v
  | .error _ => .list []

/-- The reset loop of `check_new_videos`: `self.motion[camera] = False` for
every key of the cameras dict, in insertion order. -/
def resetMotion (s : SyncModule) : SyncModule :=
  { s with motion := s.cameras.foldl (fun m kc => dset m (.str kc.1) (.bool false)) s.motion }

/-- The entry loop of `check_new_videos`. Each entry has `camera_name`,
`address` and `created_at` extracted in that order inside
`except KeyError`; a `KeyError` skips the entry, any other error (for
example `TypeError` from subscripting a non-dict entry, or from an
unhashable name used as a `motion` key) propagates. On success
`motion[name] = True` and `last_record[name] = {clip, time}`. -/
def checkLoop : List Val → SyncModule → Except PyErr Unit × SyncModule
  | [], s => (.ok (), s)
  | e :: rest, s =>
    match getItem e (.str "camera_name") with
    | .error .keyError => checkLoop rest s
    | .error err => (.error err, s)
    | .ok name =>
      match getItem e (.str "address") with
      | .error .keyError => checkLoop rest s
      | .error err => (.error err, s)
      | .ok clip =>
        match getItem e (.str "created_at") with
        | .error .keyError => checkLoop rest s
        | .error err => (.error err, s)
        | .ok timestamp =>
          if name.hashable then
            let s := { s with motion := dset s.motion name (.bool true) }
            let s := { s with
              last_record := dset s.last_record name
                (.dict [(.str "clip", clip), (.str "time", timestamp)]) }
            checkLoop rest s
          else (.error .typeError, s)

/-- Method `check_new_videos`: reset all known cameras' motion flags, fetch
the timestamp-filtered video listing, return `False` when `resp['videos']`
raises `KeyError`/`TypeError`, else process every entry and return `True`. -/
def check_new_videos (t : Transport) (s : SyncModule) : Except PyErr Bool × SyncModule :=
  let s := resetMotion s
  match getItem t.videos_time_resp (.str "videos") with
  | .error .keyError => (.ok false, s)
  | .error .typeError => (.ok false, s)
  | .error err => (.error err, s)
  | .ok info =>
    match pyIter info with
    | .error err => (.error err, s)
    | .ok entries =>
      match checkLoop entries s with
      | (.error err, s) => (.error err, s)
      | (.ok _, s) => (.ok true, s)

/-- The best-effort second `try` of `start`: `sync_id`, `serial`, `status`
are extracted from the summary one after the other; the first `KeyError`
stops the block (already-made assignments persist), any other error
propagates (none can in fact arise from a dict summary). -/
def startIds (summary : Val) (s : SyncModule) : Except PyErr Unit × SyncModule :=
  match getItem summary (.str "id") with
  | .error .keyError => (.ok (), s)
  | .error err => (.error err, s)
  | .ok v =>
    let s := { s with sync_id := v }
    match getItem summary (.str "serial") with
    | .error .keyError => (.ok (), s)
    | .error err => (.error err, s)
    | .ok v2 =>
      let s := { s with serial := v2 }
      match getItem summary (.str "status") with
      | .error .keyError => (.ok (), s)
      | .error err => (.error err, s)
      | .ok v3 => (.ok (), { s with status := v3 })

/-- The camera-creation loop of `start`: for each config, read `name`
(`KeyError`/`TypeError` propagate), create a fresh camera under that name
(`CaseInsensitiveDict` insertion raises `AttributeError` for a non-string
key), set its motion flag to false, then call its `update` with
`force_cache=True`. -/
def startCamLoop : List Val → SyncModule → Except PyErr Unit × SyncModule
  | [], s => (.ok (), s)
  | cfg :: rest, s =>
    match getItem cfg (.str "name") with
    | .error err => (.error err, s)
    | .ok (.str name) =>
      let s := { s with cameras := ciset s.cameras name { updates := [] } }
      let s := { s with motion := dset s.motion (.str name) (.bool false) }
      match cilookup s.cameras name with
      | some c =>
          let s := { s with
            cameras := ciset s.cameras name { updates := c.updates ++ [(cfg, true)] } }
          startCamLoop rest s
      | none => (.error .keyError, s)
    | .ok _ => (.error .attributeError, s)

/-- Method `start`: fetch the module status; a failed `['syncmodule']` or
`['network_id']` lookup is caught and makes the whole bootstrap return
`False`; then best-effort ids, events, homescreen, network info, new-video
check, and camera creation; finally return `True`. -/
def start (t : Transport) (s : SyncModule) : Except PyErr Bool × SyncModule :=
  match getItem t.syncmodule_resp (.str "syncmodule") with
  | .error .typeError => (.ok false, s)
  | .error .keyError => (.ok false, s)
  | .error err => (.error err, s)
  | .ok summary =>
    let s := { s with summary := summary }
    match getItem summary (.str "network_id") with
    | .error .typeError => (.ok false, s)
    | .error .keyError => (.ok false, s)
    | .error err => (.error err, s)
    | .ok nid =>
      let s := { s with network_id := nid }
      match startIds summary s with
      | (.error err, s) => (.error err, s)
      | (.ok _, s) =>
        let s := { s with events := get_events t }
        let s := { s with homescreen := t.homescreen_resp }
        let s := { s with network_info := t.network_status_resp }
        match check_new_videos t s with
        | (.error err, s) => (.error err, s)
        | (.ok _, s) =>
          match pyIter (get_camera_info t) with
          | .error err => (.error err, s)
          | .ok cfgs =>
            match startCamLoop cfgs s with
            | (.error err, s) => (.error err, s)
            | (.ok _, s) => (.ok true, s)

/-- The first phase of `refresh`: re-assign `events`, `homescreen` and
`network_info` from the transport. -/
def refreshPre (t : Transport) (s : SyncModule) : SyncModule :=
  { s with
    events := get_events t
    homescreen := t.homescreen_resp
    network_info := t.network_status_resp }

/-- The camera-update loop of `refresh`: for each config, read `name`
(`KeyError`/`TypeError` propagate), then `self.cameras[name]` — a
`KeyError` for an unknown camera name propagates (nothing catches it), an
`AttributeError` for a non-string key likewise — and call the existing
camera's `update` with the given `force_cache`. -/
def refreshLoop (force : Bool) : List Val → SyncModule → Except PyErr Unit × SyncModule
  | [], s => (.ok (), s)
  | cfg :: rest, s =>
    match getItem cfg (.str "name") with
    | .error err => (.error err, s)
    | .ok (.str name) =>
      match cilookup s.cameras name with
      | none => (.error .keyError, s)
      | some c =>
          let s := { s with
            cameras := ciset s.cameras name { updates := c.updates ++ [(cfg, force)] } }
          refreshLoop force rest s
    | .ok _ => (.error .attributeError, s)

/-- Method `refresh(force_cache)`: events, homescreen, network info, camera
info, new-video check, then per-camera update of already-known cameras. -/
def refresh (t : Transport) (force : Bool) (s : SyncModule) : Except PyErr Unit × SyncModule :=
  let s := refreshPre t s
  let camera_info := get_camera_info t
  match check_new_videos t s with
  | (.error err, s) => (.error err, s)
  | (.ok _, s) =>
    match pyIter camera_info with
    | .error err => (.error err, s)
    | .ok cfgs => refreshLoop force cfgs s

/-- The page-fetch loop of `get_videos` over the page numbers
`range(start_page, end_page + 1)`. A falsy page or a page containing a
top-level `message` stops the loop (no error); membership testing on a
truthy non-container raises. Besides the collected pages the function also
returns the trace of page numbers actually requested from the transport. -/
def fetchPages (t : Transport) : List Nat → Except PyErr (List Val) × List Nat
  | [] => (.ok [], [])
  | p :: rest =>
    let pg := t.videos_page p
    if pg.truthy = false then (.ok [], [p])
    else
      match containsVal pg (.str "message") with
      | .error err => (.error err, [p])
      | .ok true => (.ok [], [p])
      | .ok false =>
        match fetchPages t rest with
        | (.ok pgs, tr) => (.ok (pg :: pgs), p :: tr)
        | (.error err, tr) => (.error err, p :: tr)

/-- The per-page entry loop of `get_videos`, threading the call-local
`all_dates` dict. Extraction of `camera_name`/`address`/`thumbnail` sits in
`except TypeError`: a `TypeError` breaks out of this page's entries, a
`KeyError` propagates. `created_at` is read outside any handler. The
`all_clips` update catches only the `KeyError` of a missing camera key
(reading an absent `all_clips`/`videos` attribute raises
`AttributeError`); the `videos` append catches only the `KeyError` of a
missing camera key, and calling `.append` on a non-list raises
`AttributeError`. -/
def processPage : List Val → List (Val × Val) → SyncModule →
    Except PyErr (List (Val × Val)) × SyncModule
  | [], ad, s => (.ok ad, s)
  | e :: rest, ad, s =>
    match getItem e (.str "camera_name") with
    | .error .typeError => (.ok ad, s)
    | .error err => (.error err, s)
    | .ok camera_name =>
      match getItem e (.str "address") with
      | .error .typeError => (.ok ad, s)
      | .error err => (.error err, s)
      | .ok clip_addr =>
        match getItem e (.str "thumbnail") with
        | .error .typeError => (.ok ad, s)
        | .error err => (.error err, s)
        | .ok thumb_addr =>
          match getItem e (.str "created_at") with
          | .error err => (.error err, s)
          | .ok clip_date =>
            match s.all_clips with
            | none => (.error .attributeError, s)
            | some ac =>
              let acStep : Except PyErr Val :=
                match getItem ac camera_name with
                | .ok inner =>
                  match setItem inner clip_date clip_addr with
                  | .error err => .error err
                  | .ok inner2 => setItem ac camera_name inner2
                | .error .keyError =>
                  if clip_date.hashable then
                    setItem ac camera_name (.dict [(clip_date, clip_addr)])
                  else .error .typeError
                | .error err => .error err
              match acStep with
              | .error err => (.error err, s)
              | .ok ac2 =>
                let s := { s with all_clips := some ac2 }
                let dates : List Val :=
                  match dlookup ad camera_name with
                  | some (.list ds) => ds
                  | some _ => []
                  | none => []
                let ad := if (dlookup ad camera_name).isSome then ad
                  else dset ad camera_name (.list [])
                if clip_date ∈ dates then processPage rest ad s
                else
                  let ad := dset ad camera_name (.list (dates ++ [clip_date]))
                  let clipObj : Val :=
                    .dict [(.str "clip", clip_addr), (.str "thumb", thumb_addr)]
                  match s.videos with
                  | none => (.error .attributeError, s)
                  | some v =>
                    match getItem v camera_name with
                    | .ok (.list l) =>
                      match setItem v camera_name (.list (l ++ [clipObj])) with
                      | .error err => (.error err, s)
                      | .ok v2 => processPage rest ad { s with videos := some v2 }
                    | .ok _ => (.error .attributeError, s)
                    | .error .keyError =>
                      match setItem v camera_name (.list [clipObj]) with
                      | .error err => (.error err, s)
                      | .ok v2 => processPage rest ad { s with videos := some v2 }
                    | .error err => (.error err, s)

/-- The outer page loop of `get_videos`: iterate each collected page's
entries in turn, threading `all_dates`. -/
def processPages : List Val → List (Val × Val) → SyncModule →
    Except PyErr (List (Val × Val)) × SyncModule
  | [], ad, s => (.ok ad, s)
  | pg :: rest, ad, s =>
    match pyIter pg with
    | .error err => (.error err, s)
    | .ok entries =>
      match processPage entries ad s with
      | (.error err, s) => (.error err, s)
      | (.ok ad2, s) => processPages rest ad2 s

/-- The tail of `get_videos` after pages are fetched: process all entries,
store the call-local `all_dates` into `record_dates` (overwriting), and
return `self.videos` (reading the absent attribute raises
`AttributeError`). -/
def finishVideos (pages : List Val) (s : SyncModule) : Except PyErr Val × SyncModule :=
  match processPages pages [] s with
  | (.error err, s) => (.error err, s)
  | (.ok ad, s) =>
    let s := { s with record_dates := some (.dict ad) }
    match s.videos with
    | some v => (.ok v, s)
    | none => (.error .attributeError, s)

/-- Method `get_videos(start_page, end_page)`. -/
def get_videos (t : Transport) (start_page end_page : Nat) (s : SyncModule) :
    Except PyErr Val × SyncModule :=
  match fetchPages t (List.range' start_page (end_page + 1 - start_page)) with
  | (.error err, _) => (.error err, s)
  | (.ok pages, _) => finishVideos pages s

/-- Modelled from the spec: the fixed status lookup table `ONLINE` lives in
`blinkpy/helpers/constants.py`, which is not part of the sources here. Per
the spec it is a fixed status-to-boolean lookup mapping the documented
"online" status string to true and the documented "offline" status string
to false, with no other entries and no default. -/
def ONLINE : Val :=
  .dict [(.str "online", .bool true), (.str "offline", .bool false)]

/-- Property `online`: `ONLINE[self.status]`, a plain dict subscript, so an
unrecognized status raises a lookup-miss `KeyError`. -/
def online (s : SyncModule) : Except PyErr Val :=
  getItem ONLINE s.status

/-- A page is processed further by the fetch loop of `get_videos` when it is
truthy and its `message` membership test yields false. -/
def goodPage (pg : Val) : Bool :=
  pg.truthy &&
    match containsVal pg (.str "message") with
    | .ok false => true
    | _ => false

/-- A page stops the fetch loop of `get_videos` without an error: it is
falsy, or its `message` membership test yields true. -/
def stopPage (pg : Val) : Bool :=
  !pg.truthy ||
    match containsVal pg (.str "message") with
    | .ok true => true
    | _ => false

/-- Whether a listing entry carries a qualifying new clip for camera name
`k`: `camera_name` equals `k` and both `address` and `created_at` are
present (exactly the conditions under which `check_new_videos` sets
`motion[k]`). -/
def qualifies (e : Val) (k : String) : Bool :=
  (match getItem e (.str "camera_name") with
   | .ok (.str n) => n = k
   | _ => false) &&
  (match getItem e (.str "address") with
   | .ok _ => true
   | _ => false) &&
  (match getItem e (.str "created_at") with
   | .ok _ => true
   | _ => false)

/-- The entries of the timestamp-filtered listing that `check_new_videos`
iterates (empty when the listing is missing, unparseable or not iterable). -/
def listingEntries (t : Transport) : List Val :=
  match getItem t.videos_time_resp (.str "videos") with
  | .error _ => []
  | .ok info =>
    match pyIter info with
    | .error _ => []
    | .ok entries => entries

/-- A well-formed video-listing entry for camera "Cam1". -/
def entryCam1 : Val :=
  .dict [(.str "camera_name", .str "Cam1"), (.str "address", .str "/a1"),
    (.str "thumbnail", .str "/t1"), (.str "created_at", .str "t1")]

/-- A freshly constructed sync module. -/
def freshSync : SyncModule := init .none_ .none_ .none_ "sync" (.int 1)

/-- A transport whose every response is an absent body. -/
def baseT : Transport :=
  { syncmodule_resp := .none_, events_resp := .none_, homescreen_resp := .none_,
    network_status_resp := .none_, cameras_resp := .none_, videos_time_resp := .none_,
    videos_page := fun _ => .none_ }

theorem dlookup_dset_self (l : List (Val × Val)) (k v : Val) :
    dlookup (dset l k v) k = some v := by
  induction l with
  | nil => simp [dset, dlookup]
  | cons p rest ih =>
    obtain ⟨k2, v2⟩ := p
    by_cases h : k2 = k
    · simp [dset, dlookup, h]
    · simp [dset, dlookup, h, ih]

theorem dlookup_dset_ne (l : List (Val × Val)) (j k v : Val) (hjk : j ≠ k) :
    dlookup (dset l j v) k = dlookup l k := by
  induction l with
  | nil => simp [dset, dlookup, hjk]
  | cons p rest ih =>
    obtain ⟨k2, v2⟩ := p
    by_cases h : k2 = j
    · simp [dset, dlookup, h, hjk]
    · simp [dset, dlookup, h, ih]

theorem dlookup_resetFold_keep (ks : List (String × Camera)) (m : List (Val × Val))
    (key : Val) (h : dlookup m key = some (.bool false)) :
    dlookup (ks.foldl (fun m2 kc => dset m2 (.str kc.1) (.bool false)) m) key
      = some (.bool false) := by
  induction ks generalizing m with
  | nil => simpa using h
  | cons kc rest ih =>
    simp only [List.foldl_cons]
    apply ih
    by_cases hk : (Val.str kc.1) = key
    · rw [hk, dlookup_dset_self]
    · rw [dlookup_dset_ne _ _ _ _ hk]
      exact h

theorem dlookup_resetFold_mem (ks : List (String × Camera)) (m : List (Val × Val))
    (k : String) (h : k ∈ ks.map (·.1)) :
    dlookup (ks.foldl (fun m2 kc => dset m2 (.str kc.1) (.bool false)) m) (.str k)
      = some (.bool false) := by
  induction ks generalizing m with
  | nil => simp at h
  | cons kc rest ih =>
    simp only [List.map_cons, List.mem_cons] at h
    simp only [List.foldl_cons]
    rcases h with h | h
    · subst h
      exact dlookup_resetFold_keep _ _ _ (dlookup_dset_self _ _ _)
    · exact ih (dset m (.str kc.1) (.bool false)) h

theorem resetMotion_lookup (s : SyncModule) (k : String) (h : k ∈ s.cameras.map (·.1)) :
    dlookup (resetMotion s).motion (.str k) = some (.bool false) :=
  dlookup_resetFold_mem _ _ _ h

theorem resetMotion_cameras (s : SyncModule) : (resetMotion s).cameras = s.cameras := rfl

theorem checkLoop_motion_false (entries : List Val) (s : SyncModule) (k : String)
    (hq : ∀ e ∈ entries, qualifies e k = false)
    (h : dlookup s.motion (.str k) = some (.bool false)) :
    dlookup (checkLoop entries s).2.motion (.str k) = some (.bool false) := by
  induction entries generalizing s with
  | nil => simpa [checkLoop] using h
  | cons e rest ih =>
    have hqe : qualifies e k = false := hq e (by simp)
    have hqr : ∀ e2 ∈ rest, qualifies e2 k = false := fun e2 he2 => hq e2 (by simp [he2])
    cases hcn : getItem e (.str "camera_name") with
    | error err =>
      cases err with
      | keyError => simpa [checkLoop, hcn] using ih s hqr h
      | typeError => simpa [checkLoop, hcn] using h
      | attributeError => simpa [checkLoop, hcn] using h
      | indexError => simpa [checkLoop, hcn] using h
    | ok name =>
      cases haddr : getItem e (.str "address") with
      | error err =>
        cases err with
        | keyError => simpa [checkLoop, hcn, haddr] using ih s hqr h
        | typeError => simpa [checkLoop, hcn, haddr] using h
        | attributeError => simpa [checkLoop, hcn, haddr] using h
        | indexError => simpa [checkLoop, hcn, haddr] using h
      | ok clip =>
        cases hts : getItem e (.str "created_at") with
        | error err =>
          cases err with
          | keyError => simpa [checkLoop, hcn, haddr, hts] using ih s hqr h
          | typeError => simpa [checkLoop, hcn, haddr, hts] using h
          | attributeError => simpa [checkLoop, hcn, haddr, hts] using h
          | indexError => simpa [checkLoop, hcn, haddr, hts] using h
        | ok timestamp =>
          have hname : name ≠ .str k := by
            intro heq
            subst heq
            simp [qualifies, hcn, haddr, hts] at hqe
          by_cases hh : name.hashable
          · have hmot :
                dlookup (dset s.motion name (.bool true)) (.str k) = some (.bool false) := by
              rw [dlookup_dset_ne _ _ _ _ hname]
              exact h
            simpa [checkLoop, hcn, haddr, hts, hh] using
              ih _ hqr hmot
          · simpa [checkLoop, hcn, haddr, hts, hh] using h

theorem checkLoop_append_ok (xs ys : List Val) (s s2 : SyncModule) (u : Unit)
    (h : checkLoop xs s = (.ok u, s2)) :
    checkLoop (xs ++ ys) s = checkLoop ys s2 := by
  induction xs generalizing s with
  | nil => simp [checkLoop] at h; simp [h]
  | cons e rest ih =>
    simp only [List.cons_append]
    cases hcn : getItem e (.str "camera_name") with
    | error err =>
      cases err <;> simp_all [checkLoop, hcn]
    | ok name =>
      cases haddr : getItem e (.str "address") with
      | error err => cases err <;> simp_all [checkLoop, hcn, haddr]
      | ok clip =>
        cases hts : getItem e (.str "created_at") with
        | error err => cases err <;> simp_all [checkLoop, hcn, haddr, hts]
        | ok timestamp =>
          by_cases hh : name.hashable <;> simp_all [checkLoop, hcn, haddr, hts, hh]

theorem checkLoop_cameras (entries : List Val) (s : SyncModule) :
    (checkLoop entries s).2.cameras = s.cameras := by
  induction entries generalizing s with
  | nil => simp [checkLoop]
  | cons e rest ih =>
    cases hcn : getItem e (.str "camera_name") with
    | error err => cases err <;> simp_all [checkLoop, hcn]
    | ok name =>
      cases haddr : getItem e (.str "address") with
      | error err => cases err <;> simp_all [checkLoop, hcn, haddr]
      | ok clip =>
        cases hts : getItem e (.str "created_at") with
        | error err => cases err <;> simp_all [checkLoop, hcn, haddr, hts]
        | ok timestamp =>
          by_cases hh : name.hashable <;> simp_all [checkLoop, hcn, haddr, hts, hh]

theorem check_new_videos_cameras (t : Transport) (s : SyncModule) :
    (check_new_videos t s).2.cameras = s.cameras := by
  unfold check_new_videos
  cases hv : getItem t.videos_time_resp (.str "videos") with
  | error err => cases err <;> simp [hv, resetMotion_cameras]
  | ok info =>
    cases hit : pyIter info with
    | error err => simp [hv, hit, resetMotion_cameras]
    | ok entries =>
      have := checkLoop_cameras entries (resetMotion s)
      cases hcl : checkLoop entries (resetMotion s) with
      | mk r s2 =>
        cases r <;> simp_all [hv, hit, hcl, resetMotion_cameras]

theorem cilookup_eq_none_iff (l : List (String × Camera)) (k : String) :
    cilookup l k = none ↔ lowerStr k ∉ l.map (fun p => lowerStr p.1) := by
  induction l with
  | nil => simp [cilookup]
  | cons p rest ih =>
    obtain ⟨k2, c⟩ := p
    by_cases h : lowerStr k2 = lowerStr k
    · simp [cilookup, h]
    · have h2 : lowerStr k ≠ lowerStr k2 := fun hh => h hh.symm
      simp [cilookup, h, ih, h2]

theorem ciset_map_lower (l : List (String × Camera)) (k : String) (c c2 : Camera)
    (h : cilookup l k = some c) :
    (ciset l k c2).map (fun p => lowerStr p.1) = l.map (fun p => lowerStr p.1) := by
  induction l with
  | nil => simp [cilookup] at h
  | cons p rest ih =>
    obtain ⟨k2, c3⟩ := p
    by_cases hk : lowerStr k2 = lowerStr k
    · simp [ciset, cilookup, hk]
    · simp only [cilookup, hk, if_neg] at h
      simp [ciset, hk, ih h]

theorem refreshLoop_map_lower (force : Bool) (cfgs : List Val) (s : SyncModule) :
    (refreshLoop force cfgs s).2.cameras.map (fun p => lowerStr p.1)
      = s.cameras.map (fun p => lowerStr p.1) := by
  induction cfgs generalizing s with
  | nil => simp [refreshLoop]
  | cons cfg rest ih =>
    cases hn : getItem cfg (.str "name") with
    | error err => simp [refreshLoop, hn]
    | ok name =>
      cases name with
      | str n =>
        cases hc : cilookup s.cameras n with
        | none => simp [refreshLoop, hn, hc]
        | some c =>
          rw [show refreshLoop force (cfg :: rest) s
            = refreshLoop force rest { s with
                cameras := ciset s.cameras n { updates := c.updates ++ [(cfg, force)] } } by
              simp [refreshLoop, hn, hc]]
          rw [ih]
          exact ciset_map_lower _ _ _ _ hc
      | none_ => simp [refreshLoop, hn]
      | bool b => simp [refreshLoop, hn]
      | int n => simp [refreshLoop, hn]
      | list l => simp [refreshLoop, hn]
      | dict l => simp [refreshLoop, hn]

theorem refreshLoop_append_ok (force : Bool) (xs ys : List Val) (s s2 : SyncModule) (u : Unit)
    (h : refreshLoop force xs s = (.ok u, s2)) :
    refreshLoop force (xs ++ ys) s = refreshLoop force ys s2 := by
  induction xs generalizing s with
  | nil => simp [refreshLoop] at h; simp [h]
  | cons cfg rest ih =>
    simp only [List.cons_append]
    cases hn : getItem cfg (.str "name") with
    | error err => simp_all [refreshLoop, hn]
    | ok name =>
      cases name with
      | str n =>
        cases hc : cilookup s.cameras n with
        | none => simp_all [refreshLoop, hn, hc]
        | some c => simp_all [refreshLoop, hn, hc]
      | none_ => simp_all [refreshLoop, hn]
      | bool b => simp_all [refreshLoop, hn]
      | int n => simp_all [refreshLoop, hn]
      | list l => simp_all [refreshLoop, hn]
      | dict l => simp_all [refreshLoop, hn]

theorem fetchPages_stop (t : Transport) (k : Nat) (rest : List Nat)
    (h : stopPage (t.videos_page k) = true) :
    fetchPages t (k :: rest) = (.ok [], [k]) := by
  by_cases ht : (t.videos_page k).truthy
  · simp only [stopPage, ht, Bool.not_true, Bool.false_or] at h
    cases hc : containsVal (t.videos_page k) (.str "message") with
    | error err => rw [hc] at h; simp at h
    | ok b =>
      cases b with
      | false => rw [hc] at h; simp at h
      | true => simp [fetchPages, ht, hc]
  · simp [fetchPages, Bool.not_eq_true _ ▸ ht]

theorem fetchPages_good_cons (t : Transport) (p : Nat) (rest : List Nat)
    (h : goodPage (t.videos_page p) = true) :
    fetchPages t (p :: rest) =
      (match fetchPages t rest with
       | (.ok pgs, tr) => (.ok (t.videos_page p :: pgs), p :: tr)
       | (.error err, tr) => (.error err, p :: tr)) := by
  simp only [goodPage, Bool.and_eq_true] at h
  obtain ⟨ht, hc⟩ := h
  cases hcv : containsVal (t.videos_page p) (.str "message") with
  | error err => rw [hcv] at hc; simp at hc
  | ok b =>
    cases b with
    | true => rw [hcv] at hc; simp at hc
    | false => simp [fetchPages, ht, hcv]

theorem fetchPages_stops_at (t : Transport) (pre rest : List Nat) (k : Nat)
    (hgood : ∀ p ∈ pre, goodPage (t.videos_page p) = true)
    (hstop : stopPage (t.videos_page k) = true) :
    fetchPages t (pre ++ k :: rest) = (.ok (pre.map t.videos_page), pre ++ [k]) := by
  induction pre with
  | nil => simpa using fetchPages_stop t k rest hstop
  | cons p pr ih =>
    have hp : goodPage (t.videos_page p) = true := hgood p (by simp)
    have hpr : ∀ q ∈ pr, goodPage (t.videos_page q) = true :=
      fun q hq => hgood q (by simp [hq])
    rw [List.cons_append, fetchPages_good_cons t p _ hp, ih hpr]
    simp

theorem start_false_shape (t : Transport) (s : SyncModule)
    (h : (start t s).1 = .ok false) :
    start t s = (.ok false, s) ∨
    ∃ sm, getItem t.syncmodule_resp (.str "syncmodule") = .ok sm ∧
      start t s = (.ok false, { s with summary := sm }) := by
  cases hcn : getItem t.syncmodule_resp (.str "syncmodule") with
  | error err =>
    cases err with
    | keyError => left; simp [start, hcn]
    | typeError => left; simp [start, hcn]
    | attributeError => exact absurd h (by simp [start, hcn])
    | indexError => exact absurd h (by simp [start, hcn])
  | ok sm =>
    cases hnid : getItem sm (.str "network_id") with
    | error err =>
      cases err with
      | keyError => right; exact ⟨sm, rfl, by simp [start, hcn, hnid]⟩
      | typeError => right; exact ⟨sm, rfl, by simp [start, hcn, hnid]⟩
      | attributeError => exact absurd h (by simp [start, hcn, hnid])
      | indexError => exact absurd h (by simp [start, hcn, hnid])
    | ok nid =>
      exfalso
      simp only [start, hcn, hnid] at h
      split at h
      · simp at h
      · split at h
        · simp at h
        · split at h
          · simp at h
          · split at h
            · simp at h
            · simp at h

/-- Claim C9: the `online` accessor is a pure function of the `status` field
via the fixed `ONLINE` lookup: it returns true exactly when `status` is the
documented "online" string, returns false for the documented "offline"
string, and raises a lookup-miss `KeyError` (never a silent default) for
every other status string. -/
theorem online_status_lookup (s s2 : SyncModule) :
    (online s = .ok (.bool true) ↔ s.status = .str "online") ∧
    (s.status = .str "offline" → online s = .ok (.bool false)) ∧
    (∀ st : String, st ≠ "online" → st ≠ "offline" → s.status = .str st →
      online s = .error .keyError) ∧
    (s.status = s2.status → online s = online s2) := by
  refine ⟨⟨fun h => ?_, fun h => by simp only [online, h]; decide⟩,
    fun h => by simp only [online, h]; decide,
    fun st h1 h2 h3 => ?_,
    fun h => by simp only [online, h]⟩
  · cases hs : s.status with
    | str st =>
      simp only [online, hs] at h
      by_cases ho : st = "online"
      · rw [ho]
      · by_cases hof : st = "offline"
        · subst hof
          simp [ONLINE, getItem, dlookup, Val.hashable] at h
        · simp [ONLINE, getItem, dlookup, Val.hashable, Ne.symm ho, Ne.symm hof] at h
    | none_ => simp [online, hs, ONLINE, getItem, dlookup, Val.hashable] at h
    | bool b => simp [online, hs, ONLINE, getItem, dlookup, Val.hashable] at h
    | int n => simp [online, hs, ONLINE, getItem, dlookup, Val.hashable] at h
    | list l => simp [online, hs, ONLINE, getItem, Val.hashable] at h
    | dict l => simp [online, hs, ONLINE, getItem, Val.hashable] at h
  · simp only [online, h3]
    simp [ONLINE, getItem, dlookup, Val.hashable, Ne.symm h1, Ne.symm h2]

/-- Witness for C9 at the three concrete status strings. -/
theorem online_status_lookup_witness :
    online { freshSync with status := .str "online" } = .ok (.bool true) ∧
    online { freshSync with status := .str "offline" } = .ok (.bool false) ∧
    online { freshSync with status := .str "degraded" } = .error .keyError :=
  ⟨(online_status_lookup { freshSync with status := .str "online" } freshSync).1.mpr rfl,
   (online_status_lookup { freshSync with status := .str "offline" } freshSync).2.1 rfl,
   (online_status_lookup { freshSync with status := .str "degraded" } freshSync).2.2.1
     "degraded" (by decide) (by decide) rfl⟩

/-- Claim C3: for every module-status response that is missing, unparseable
or lacking the `syncmodule` key (the response's `['syncmodule']` subscript
raises `KeyError` or `TypeError`), `start` returns false and `sync_id`,
`serial` and `status` keep exactly their prior values (in fact the whole
state is unchanged). -/
theorem start_bad_syncmodule (t : Transport) (s : SyncModule)
    (h : getItem t.syncmodule_resp (.str "syncmodule") = .error .keyError ∨
         getItem t.syncmodule_resp (.str "syncmodule") = .error .typeError) :
    start t s = (.ok false, s) ∧
    (start t s).2.sync_id = s.sync_id ∧
    (start t s).2.serial = s.serial ∧
    (start t s).2.status = s.status := by
  have hmain : start t s = (.ok false, s) := by
    rcases h with h | h <;> simp [start, h]
  exact ⟨hmain, by rw [hmain], by rw [hmain], by rw [hmain]⟩

/-- Witness for C3: an absent body (`None` response). -/
theorem start_bad_syncmodule_witness :
    start baseT freshSync = (.ok false, freshSync) ∧
    (start baseT freshSync).2.sync_id = freshSync.sync_id ∧
    (start baseT freshSync).2.serial = freshSync.serial ∧
    (start baseT freshSync).2.status = freshSync.status :=
  start_bad_syncmodule baseT freshSync (Or.inr rfl)

/-- Claim C10: whenever `start` returns false, every field except `summary`
is unchanged: `network_id` keeps its prior (constructor-supplied) value and
`events`, `cameras`, `motion`, `last_record`, `homescreen`, `network_info`
(and all remaining fields) are untouched; only `summary` may have been
assigned, namely when the response has a `syncmodule` value lacking
`network_id`. -/
theorem start_false_frame (t : Transport) (s : SyncModule)
    (h : (start t s).1 = .ok false) :
    (start t s).2.network_id = s.network_id ∧
    (start t s).2.name = s.name ∧
    (start t s).2.region = s.region ∧
    (start t s).2.region_id = s.region_id ∧
    (start t s).2.auth_header = s.auth_header ∧
    (start t s).2.serial = s.serial ∧
    (start t s).2.status = s.status ∧
    (start t s).2.sync_id = s.sync_id ∧
    (start t s).2.host = s.host ∧
    (start t s).2.homescreen = s.homescreen ∧
    (start t s).2.network_info = s.network_info ∧
    (start t s).2.events = s.events ∧
    (start t s).2.cameras = s.cameras ∧
    (start t s).2.motion = s.motion ∧
    (start t s).2.last_record = s.last_record ∧
    (start t s).2.all_clips = s.all_clips ∧
    (start t s).2.videos = s.videos ∧
    (start t s).2.record_dates = s.record_dates := by
  rcases start_false_shape t s h with heq | ⟨sm, hcn, heq⟩ <;> rw [heq] <;> simp

/-- Witness for C10: a failing bootstrap against an absent body. -/
theorem start_false_frame_witness :
    (start baseT freshSync).2.network_id = freshSync.network_id ∧
    (start baseT freshSync).2.name = freshSync.name ∧
    (start baseT freshSync).2.region = freshSync.region ∧
    (start baseT freshSync).2.region_id = freshSync.region_id ∧
    (start baseT freshSync).2.auth_header = freshSync.auth_header ∧
    (start baseT freshSync).2.serial = freshSync.serial ∧
    (start baseT freshSync).2.status = freshSync.status ∧
    (start baseT freshSync).2.sync_id = freshSync.sync_id ∧
    (start baseT freshSync).2.host = freshSync.host ∧
    (start baseT freshSync).2.homescreen = freshSync.homescreen ∧
    (start baseT freshSync).2.network_info = freshSync.network_info ∧
    (start baseT freshSync).2.events = freshSync.events ∧
    (start baseT freshSync).2.cameras = freshSync.cameras ∧
    (start baseT freshSync).2.motion = freshSync.motion ∧
    (start baseT freshSync).2.last_record = freshSync.last_record ∧
    (start baseT freshSync).2.all_clips = freshSync.all_clips ∧
    (start baseT freshSync).2.videos = freshSync.videos ∧
    (start baseT freshSync).2.record_dates = freshSync.record_dates :=
  start_false_frame baseT freshSync (by decide)

/-- A sync module that knows one camera "Cam1" whose motion flag is
currently true. -/
def sCam1 : SyncModule :=
  { freshSync with
    cameras := [("Cam1", { updates := [] })],
    motion := [(.str "Cam1", .bool true)] }

/-- Claim C6: for every video-listing response whose `['videos']` subscript
fails (missing key or unparseable response), `check_new_videos` returns
false and every camera currently present in the cameras mapping has
`motion[camera] == false`. -/
theorem check_new_videos_missing_listing (t : Transport) (s : SyncModule)
    (h : getItem t.videos_time_resp (.str "videos") = .error .keyError ∨
         getItem t.videos_time_resp (.str "videos") = .error .typeError) :
    check_new_videos t s = (.ok false, resetMotion s) ∧
    ∀ k ∈ s.cameras.map (·.1),
      dlookup (check_new_videos t s).2.motion (.str k) = some (.bool false) := by
  have hmain : check_new_videos t s = (.ok false, resetMotion s) := by
    rcases h with h | h <;> simp [check_new_videos, h]
  refine ⟨hmain, fun k hk => ?_⟩
  rw [hmain]
  exact resetMotion_lookup s k hk

/-- Witness for C6: an absent listing body against a known camera whose
motion flag was previously true. -/
theorem check_new_videos_missing_listing_witness :
    check_new_videos baseT sCam1 = (.ok false, resetMotion sCam1) ∧
    dlookup (check_new_videos baseT sCam1).2.motion (.str "Cam1") = some (.bool false) :=
  ⟨(check_new_videos_missing_listing baseT sCam1 (Or.inr rfl)).1,
   (check_new_videos_missing_listing baseT sCam1 (Or.inr rfl)).2 "Cam1" (by decide)⟩

/-- A timestamp-filtered listing with one entry for an unknown camera
"Ghost". -/
def tGhost : Transport :=
  { baseT with videos_time_resp := .dict [(.str "videos", .list [
      .dict [(.str "camera_name", .str "Ghost"), (.str "address", .str "/g"),
        (.str "created_at", .str "tg")]])] }

/-- A timestamp-filtered listing that is present but empty. -/
def tEmptyListing : Transport :=
  { baseT with videos_time_resp := .dict [(.str "videos", .list [])] }

/-- Counterexample to C4 as stated: starting from a fresh module, a first
check observes a clip for the unknown camera "Ghost" and sets
`motion["Ghost"] = true`; a second check whose listing is empty (so it
contains no qualifying clip for "Ghost") completes successfully yet leaves
`motion["Ghost"]` still true, because the reset loop only covers keys of
`cameras` and "Ghost" is not among them. -/
theorem check_new_videos_stale_motion :
    dlookup (check_new_videos tGhost freshSync).2.motion (.str "Ghost")
      = some (.bool true) ∧
    listingEntries tEmptyListing = [] ∧
    (check_new_videos tEmptyListing (check_new_videos tGhost freshSync).2).1 = .ok true ∧
    dlookup (check_new_videos tEmptyListing (check_new_videos tGhost freshSync).2).2.motion
      (.str "Ghost") = some (.bool true) := by decide

/-- Claim C4 (amended): on every call to `check_new_videos`, for every key
of `motion` that is a currently known camera (a key of the cameras
mapping), if this call's listing contains no qualifying new clip for that
camera then `motion[camera]` is false after the call — stale true values
can persist only for motion keys that are not known cameras. -/
theorem check_new_videos_recompute_known (t : Transport) (s : SyncModule) (k : String)
    (hk : k ∈ s.cameras.map (·.1))
    (hq : ∀ e ∈ listingEntries t, qualifies e k = false) :
    dlookup (check_new_videos t s).2.motion (.str k) = some (.bool false) := by
  unfold check_new_videos
  cases hv : getItem t.videos_time_resp (.str "videos") with
  | error err =>
    cases err <;> simp [hv] <;> exact resetMotion_lookup s k hk
  | ok info =>
    cases hit : pyIter info with
    | error err =>
      simp [hv, hit]
      exact resetMotion_lookup s k hk
    | ok entries =>
      have hq2 : ∀ e ∈ entries, qualifies e k = false := by
        intro e he
        apply hq
        simp [listingEntries, hv, hit, he]
      have hloop := checkLoop_motion_false entries (resetMotion s) k hq2
        (resetMotion_lookup s k hk)
      rcases hcl : checkLoop entries (resetMotion s) with ⟨r, s2⟩
      rw [hcl] at hloop
      cases r <;> simpa [hv, hit, hcl] using hloop

/-- Witness for C4 (amended): the "Ghost" listing contains no qualifying
clip for the known camera "Cam1", whose motion flag was previously true. -/
theorem check_new_videos_recompute_known_witness :
    dlookup (check_new_videos tGhost sCam1).2.motion (.str "Cam1")
      = some (.bool false) :=
  check_new_videos_recompute_known tGhost sCam1 "Cam1" (by decide) (by decide)

/-- Claim C8: for every state and every well-formed listing entry with
`camera_name "Cam1"`, `address "/a1"`, `created_at "t1"` processed by
`check_new_videos` as the listing's final entry (any earlier entries having
been processed without an uncaught error), the call returns true and
afterwards `motion["Cam1"] == true` and
`last_record["Cam1"] == {clip: "/a1", time: "t1"}`. -/
theorem check_new_videos_entry_updates (t : Transport) (s s1 : SyncModule)
    (info : Val) (pre : List Val) (e : Val)
    (hv : getItem t.videos_time_resp (.str "videos") = .ok info)
    (hit : pyIter info = .ok (pre ++ [e]))
    (hpre : checkLoop pre (resetMotion s) = (.ok (), s1))
    (hcn : getItem e (.str "camera_name") = .ok (.str "Cam1"))
    (haddr : getItem e (.str "address") = .ok (.str "/a1"))
    (hts : getItem e (.str "created_at") = .ok (.str "t1")) :
    (check_new_videos t s).1 = .ok true ∧
    dlookup (check_new_videos t s).2.motion (.str "Cam1") = some (.bool true) ∧
    dlookup (check_new_videos t s).2.last_record (.str "Cam1")
      = some (.dict [(.str "clip", .str "/a1"), (.str "time", .str "t1")]) := by
  have hsplit := checkLoop_append_ok pre [e] (resetMotion s) s1 () hpre
  have hone : checkLoop [e] s1 = (.ok (),
      { { s1 with motion := dset s1.motion (.str "Cam1") (.bool true) } with
        last_record := dset s1.last_record (.str "Cam1")
          (.dict [(.str "clip", .str "/a1"), (.str "time", .str "t1")]) }) := by
    simp [checkLoop, hcn, haddr, hts, Val.hashable]
  have hfull : check_new_videos t s = (.ok true,
      { { s1 with motion := dset s1.motion (.str "Cam1") (.bool true) } with
        last_record := dset s1.last_record (.str "Cam1")
          (.dict [(.str "clip", .str "/a1"), (.str "time", .str "t1")]) }) := by
    simp [check_new_videos, hv, hit, hsplit, hone]
  rw [hfull]
  refine ⟨rfl, ?_, ?_⟩
  · exact dlookup_dset_self _ _ _
  · exact dlookup_dset_self _ _ _

/-- A timestamp-filtered listing holding exactly the well-formed "Cam1"
entry of C8. -/
def tCam1Entry : Transport :=
  { baseT with videos_time_resp := .dict [(.str "videos", .list [
      .dict [(.str "camera_name", .str "Cam1"), (.str "address", .str "/a1"),
        (.str "created_at", .str "t1")]])] }

/-- Witness for C8 at a concrete single-entry listing. -/
theorem check_new_videos_entry_updates_witness :
    (check_new_videos tCam1Entry freshSync).1 = .ok true ∧
    dlookup (check_new_videos tCam1Entry freshSync).2.motion (.str "Cam1")
      = some (.bool true) ∧
    dlookup (check_new_videos tCam1Entry freshSync).2.last_record (.str "Cam1")
      = some (.dict [(.str "clip", .str "/a1"), (.str "time", .str "t1")]) :=
  check_new_videos_entry_updates tCam1Entry freshSync (resetMotion freshSync)
    (.list [.dict [(.str "camera_name", .str "Cam1"), (.str "address", .str "/a1"),
      (.str "created_at", .str "t1")]])
    [] (.dict [(.str "camera_name", .str "Cam1"), (.str "address", .str "/a1"),
      (.str "created_at", .str "t1")])
    rfl rfl rfl rfl rfl rfl

/-- A camera-info response with one entry for camera "Cam1". -/
def tCamInfo : Transport :=
  { baseT with cameras_resp := .dict [(.str "devicestatus",
      .list [.dict [(.str "name", .str "Cam1")]])] }

/-- Counterexample to C2 as stated: on a fresh module (no known cameras),
`refresh` hits a camera-info entry whose name has no matching known camera
and raises a `KeyError` (from `self.cameras[name]`) instead of silently
skipping the entry; no camera object is created. -/
theorem refresh_unknown_camera_raises :
    (refresh tCamInfo false freshSync).1 = .error .keyError ∧
    (refresh tCamInfo false freshSync).2.cameras = [] := by decide

/-- Claim C2 (amended): for every camera-info entry reached by `refresh`
whose camera name has no matching camera in the cameras mapping, or which
lacks a `name` field entirely, `refresh` raises a `KeyError` at that entry
rather than skipping it: no camera object is created (the set of
lowercased camera keys is exactly the one the module started with) and the
remaining sibling entries are not processed. -/
theorem refresh_unknown_camera_keyerror (t : Transport) (force : Bool)
    (s s1 s2 : SyncModule) (b : Bool) (pre rest : List Val) (e : Val)
    (hcv : check_new_videos t (refreshPre t s) = (.ok b, s1))
    (hit : pyIter (get_camera_info t) = .ok (pre ++ e :: rest))
    (hpre : refreshLoop force pre s1 = (.ok (), s2))
    (he : (∃ n, getItem e (.str "name") = .ok (.str n) ∧ cilookup s2.cameras n = none) ∨
          getItem e (.str "name") = .error .keyError) :
    refresh t force s = (.error .keyError, s2) ∧
    (refresh t force s).2.cameras.map (fun p => lowerStr p.1)
      = s.cameras.map (fun p => lowerStr p.1) := by
  have hloop := refreshLoop_append_ok force pre (e :: rest) s1 s2 () hpre
  have hstep : refreshLoop force (e :: rest) s2 = (.error .keyError, s2) := by
    rcases he with ⟨n, hn, hc⟩ | hn
    · simp [refreshLoop, hn, hc]
    · simp [refreshLoop, hn]
  have hmain : refresh t force s = (.error .keyError, s2) := by
    simp [refresh, hcv, hit, hloop, hstep]
  have hs1cam : s1.cameras = s.cameras := by
    have hcc := check_new_videos_cameras t (refreshPre t s)
    rw [hcv] at hcc
    exact hcc
  have hs2cam : s2.cameras.map (fun p => lowerStr p.1)
      = s.cameras.map (fun p => lowerStr p.1) := by
    have hml := refreshLoop_map_lower force pre s1
    rw [hpre] at hml
    rw [hml, hs1cam]
  exact ⟨hmain, by rw [hmain]; exact hs2cam⟩

/-- Witness for C2 (amended): the fresh module with a one-entry camera-info
response. -/
theorem refresh_unknown_camera_keyerror_witness :
    refresh tCamInfo false freshSync
      = (.error .keyError, (check_new_videos tCamInfo (refreshPre tCamInfo freshSync)).2) ∧
    (refresh tCamInfo false freshSync).2.cameras.map (fun p => lowerStr p.1)
      = freshSync.cameras.map (fun p => lowerStr p.1) :=
  refresh_unknown_camera_keyerror tCamInfo false freshSync
    (check_new_videos tCamInfo (refreshPre tCamInfo freshSync)).2
    (check_new_videos tCamInfo (refreshPre tCamInfo freshSync)).2
    false [] [] (.dict [(.str "name", .str "Cam1")])
    rfl rfl rfl (Or.inl ⟨"Cam1", rfl, rfl⟩)

/-- Claim C7: in `get_videos(start_page, end_page)`, as soon as a page in
the range is falsy or contains a top-level `message` field, no later page
in the range is requested from the transport (the trace of fetched page
numbers ends at the stopping page), and the result of the call is exactly
the processing of the pages fetched before that point into
`all_clips`/`videos`. -/
theorem get_videos_stops_on_message (t : Transport) (s : SyncModule)
    (sp ep k : Nat) (pre rest : List Nat)
    (hsplit : List.range' sp (ep + 1 - sp) = pre ++ k :: rest)
    (hgood : ∀ p ∈ pre, goodPage (t.videos_page p) = true)
    (hstop : stopPage (t.videos_page k) = true) :
    (fetchPages t (List.range' sp (ep + 1 - sp))).2 = pre ++ [k] ∧
    get_videos t sp ep s = finishVideos (pre.map t.videos_page) s := by
  have hfp := fetchPages_stops_at t pre rest k hgood hstop
  constructor
  · rw [hsplit, hfp]
  · rw [get_videos, hsplit, hfp]

/-- Pages for C7's witness: page 0 is a well-formed listing, page 1 carries
a `message` envelope, later pages would be well-formed again. -/
def tMsg : Transport :=
  { baseT with videos_page := fun n =>
      if n = 0 then .list [entryCam1]
      else if n = 1 then .dict [(.str "message", .str "video error")]
      else .list [entryCam1] }

/-- Witness for C7: requesting pages 0..5 stops after the message on page 1
and processes only page 0. -/
theorem get_videos_stops_on_message_witness :
    (fetchPages tMsg (List.range' 0 (5 + 1 - 0))).2 = [0] ++ [1] ∧
    get_videos tMsg 0 5 freshSync = finishVideos ([0].map tMsg.videos_page) freshSync :=
  get_videos_stops_on_message tMsg freshSync 0 5 1 [0] [2, 3, 4, 5]
    (by decide) (by decide) (by decide)

/-- A transport whose first video page holds one well-formed entry and
whose later pages are absent. -/
def tFirstPage : Transport :=
  { baseT with videos_page := fun n => if n = 0 then .list [entryCam1] else .none_ }

/-- Claim C1 (code-bug evidence): `__init__` never creates the `all_clips`
and `videos` attributes, so `get_videos` on a freshly constructed instance
whose first fetched page holds a well-formed entry raises
`AttributeError` instead of returning the accumulated videos mapping. -/
theorem get_videos_fresh_attribute_error :
    freshSync.all_clips = none ∧
    freshSync.videos = none ∧
    (get_videos tFirstPage 0 1 freshSync).1 = .error .attributeError := by decide

/-- Counterexample to C5 as stated: on the only instances the constructor
can produce, the first of the two `get_videos(0, 0)` calls already raises
`AttributeError` (the `videos`/`all_clips` attributes are never created by
`__init__`), so `videos["Cam1"]` does not have length 1 after it. -/
theorem get_videos_twice_fresh_raises :
    (get_videos tFirstPage 0 0 freshSync).1 = .error .attributeError ∧
    (get_videos tFirstPage 0 0 freshSync).2.videos = none := by decide

/-- The `{clip, thumb}` record appended for `entryCam1`. -/
def clipCam1 : Val := .dict [(.str "clip", .str "/a1"), (.str "thumb", .str "/t1")]

/-- Claim C5 (amended): starting from any state whose `all_clips` and
`videos` attributes exist as empty dicts (a freshly constructed instance
instead raises, see the counterexample), calling `get_videos(0, 0)` twice
with identical single-page content holding exactly one entry for camera
"Cam1" at timestamp "t1" gives: after the first call `videos["Cam1"]` has
length 1 and `all_clips["Cam1"]["t1"]` is the clip address; after the
second call `all_clips` is unchanged while `videos["Cam1"]` has length 2,
because duplicate suppression uses only the call-local seen set. -/
theorem get_videos_call_local_dedup (s : SyncModule)
    (h1 : s.all_clips = some (.dict []))
    (h2 : s.videos = some (.dict [])) :
    (get_videos tFirstPage 0 0 s).1 = .ok (.dict [(.str "Cam1", .list [clipCam1])]) ∧
    (get_videos tFirstPage 0 0 s).2.videos
      = some (.dict [(.str "Cam1", .list [clipCam1])]) ∧
    (get_videos tFirstPage 0 0 s).2.all_clips
      = some (.dict [(.str "Cam1", .dict [(.str "t1", .str "/a1")])]) ∧
    (get_videos tFirstPage 0 0 (get_videos tFirstPage 0 0 s).2).2.all_clips
      = (get_videos tFirstPage 0 0 s).2.all_clips ∧
    (get_videos tFirstPage 0 0 (get_videos tFirstPage 0 0 s).2).2.videos
      = some (.dict [(.str "Cam1", .list [clipCam1, clipCam1])]) := by
  obtain ⟨nm, nid, rg, rgid, ah, sr, st, sy, ho, su, hs, ni, ev, ca, mo, lr, ac, vi, rd⟩ := s
  simp only at h1 h2
  subst h1 h2
  exact ⟨rfl, rfl, rfl, rfl, rfl⟩

/-- A module whose video-index attributes exist as empty dicts. -/
def sInitClips : SyncModule :=
  { freshSync with all_clips := some (.dict []), videos := some (.dict []) }

/-- Witness for C5 (amended) at a concrete initialized instance. -/
theorem get_videos_call_local_dedup_witness :
    (get_videos tFirstPage 0 0 sInitClips).1
      = .ok (.dict [(.str "Cam1", .list [clipCam1])]) ∧
    (get_videos tFirstPage 0 0 sInitClips).2.videos
      = some (.dict [(.str "Cam1", .list [clipCam1])]) ∧
    (get_videos tFirstPage 0 0 sInitClips).2.all_clips
      = some (.dict [(.str "Cam1", .dict [(.str "t1", .str "/a1")])]) ∧
    (get_videos tFirstPage 0 0 (get_videos tFirstPage 0 0 sInitClips).2).2.all_clips
      = (get_videos tFirstPage 0 0 sInitClips).2.all_clips ∧
    (get_videos tFirstPage 0 0 (get_videos tFirstPage 0 0 sInitClips).2).2.videos
      = some (.dict [(.str "Cam1", .list [clipCam1, clipCam1])]) :=
  get_videos_call_local_dedup sInitClips rfl rfl
